import Mathlib

/-
Verification development for the ProtoContext / KeyContext subsystem of an
OpenVPN-compatible protocol engine (src/openvpn/ssl/proto.hpp).

Shallow-embedding conventions used throughout this file:
  * network bytes are modelled as `List Nat`, each element an octet (< 256);
  * the C++ bit operations on non-negative integers are written with the
    equivalent division/modulus arithmetic: `x >> 3` is `x / 8`, `x & 7` is
    `x % 8`, `(x << 3) | k` with `k < 8` is `x * 8 + k`, and `& 0x00FFFFFF`
    is `% 2 ^ 24`;
  * machine times (`Time`, `seconds_since_epoch`) are `Nat` values;
  * external cryptographic primitives (tls-auth HMAC compare, the data
    channel cipher instance, the compressor) are parameters: they are
    opaque interfaces in the source as well;
  * C++ exceptions (`BufferException`, `proto_error`) become explicit
    error-carrying results;
  * components of this repository that live outside proto.hpp
    (ProtoStackBase, ReliableSend/ReliableRecv, PacketIDReceive) are
    modelled from the specification text and are marked as such in their
    doc comments.
-/

namespace OVPN

/-! ## Error kinds (spec section 7, `Error::Type` in the stats sink) -/

/-- Error kinds propagated via the session stats sink. -/
inductive Err where
  | HMAC_ERROR
  | DECRYPT_ERROR
  | BUFFER_ERROR
  | REPLAY_ERROR
  | CC_ERROR
  | KEEPALIVE_TIMEOUT
  | HANDSHAKE_TIMEOUT
  | PRIMARY_EXPIRE
  | N_KEY_LIMIT_RENEG
  deriving DecidableEq, Repr

/-! ## Opcodes and header arithmetic (proto.hpp lines 157-235) -/

def KEY_ID_MASK : Nat := 0x07

def OPCODE_SHIFT : Nat := 3

def CONTROL_SOFT_RESET_V1 : Nat := 3

def CONTROL_V1 : Nat := 4

def ACK_V1 : Nat := 5

def DATA_V1 : Nat := 6

def DATA_V2 : Nat := 9

def CONTROL_HARD_RESET_CLIENT_V2 : Nat := 7

def CONTROL_HARD_RESET_SERVER_V2 : Nat := 8

def INVALID_OPCODE : Nat := 0

def OP_SIZE_V2 : Nat := 4

def OP_PEER_ID_UNDEF : Nat := 0x00FFFFFF

/-- KeyContext negotiation states (proto.hpp lines 189-207).  The numeric
values are kept so that the source's ordered comparisons (`state >= ACTIVE`,
`state <= LAST_ACK_STATE`) translate directly. -/
def STATE_UNDEF : Int := -1

def C_WAIT_RESET_ACK : Int := 0

def C_WAIT_AUTH_ACK : Int := 1

def S_WAIT_RESET_ACK : Int := 2

def S_WAIT_AUTH_ACK : Int := 3

def LAST_ACK_STATE : Int := 3

def C_INITIAL : Int := 4

def C_WAIT_RESET : Int := 5

def C_WAIT_AUTH : Int := 6

def S_INITIAL : Int := 7

def S_WAIT_RESET : Int := 8

def S_WAIT_AUTH : Int := 9

def ACTIVE : Int := 10

/-- `op >> OPCODE_SHIFT` (proto.hpp line 210). -/
def opcode_extract (op : Nat) : Nat := op / 2 ^ OPCODE_SHIFT

/-- `op & KEY_ID_MASK` (proto.hpp line 215). -/
def key_id_extract (op : Nat) : Nat := op % (KEY_ID_MASK + 1)

/-- `opcode_extract(op) == DATA_V2 ? OP_SIZE_V2 : 1` (proto.hpp line 220). -/
def op_head_size (op : Nat) : Nat :=
  if opcode_extract op = DATA_V2 then OP_SIZE_V2 else 1

/-- `(opcode << OPCODE_SHIFT) | key_id` (proto.hpp line 225); for
`key_id < 8` the bitwise-or is addition. -/
def op_compose (opcode key_id : Nat) : Nat := opcode * 2 ^ OPCODE_SHIFT + key_id

/-- `(op_compose(opcode, key_id) << 24) | (op_peer_id & 0x00FFFFFF)`
(proto.hpp line 230). -/
def op32_compose (opcode key_id op_peer_id : Nat) : Nat :=
  op_compose opcode key_id * 2 ^ 24 + op_peer_id % 2 ^ 24

/-! ## Fixed data-channel magic messages (proto.hpp lines 122-148) -/

def keepalive_message : List Nat :=
  [0x2a, 0x18, 0x7b, 0xf3, 0x64, 0x1e, 0xb4, 0xcb,
   0x07, 0xed, 0x2d, 0x0a, 0x98, 0x1f, 0xc7, 0x48]

def KEEPALIVE_FIRST_BYTE : Nat := 0x2a

def explicit_exit_notify_message : List Nat :=
  [0x28, 0x7f, 0x34, 0x6b, 0xd4, 0xef, 0x7a, 0x81,
   0x2d, 0x56, 0xb8, 0xd3, 0xaf, 0xc5, 0x45, 0x9c, 6]

/-- `is_keepalive` (proto.hpp lines 133-138): size at least 16, first byte
0x2a, first 16 bytes equal to the keepalive magic. -/
def is_keepalive (buf : List Nat) : Bool :=
  decide (buf.length ≥ keepalive_message.length)
    && (buf.headD 0 == KEEPALIVE_FIRST_BYTE)
    && (buf.take keepalive_message.length == keepalive_message)

/-! ## Key-id generator (proto.hpp lines 3059-3068 and reset at line 2439) -/

/-- The `upcoming_key_id` / `n_key_ids` fields of ProtoContext that
`next_key_id` operates on. -/
structure KeyIdGen where
  upcoming_key_id : Nat
  n_key_ids : Nat
  deriving DecidableEq, Repr

/-- `next_key_id` (proto.hpp lines 3061-3068): increment `n_key_ids`, return
the current `upcoming_key_id`, then advance it by one modulo 8
(`(upcoming_key_id + 1) & KEY_ID_MASK`), skipping value 0 on wrap. -/
def next_key_id (s : KeyIdGen) : Nat × KeyIdGen :=
  let n := s.n_key_ids + 1
  let ret := s.upcoming_key_id
  let u := (s.upcoming_key_id + 1) % (KEY_ID_MASK + 1)
  (ret, { upcoming_key_id := if u = 0 then 1 else u, n_key_ids := n })

/-- `reset()` sets `upcoming_key_id = 0` (proto.hpp line 2439); `n_key_ids`
is not reset (it is zeroed only at construction, line 2408). -/
def resetKeyIds (s : KeyIdGen) : KeyIdGen := { s with upcoming_key_id := 0 }

/-- State of the generator after `n` calls to `next_key_id`. -/
def genState (s0 : KeyIdGen) : Nat → KeyIdGen
  | 0 => s0
  | n + 1 => (next_key_id (genState s0 n)).2

/-- The value returned by the `(n+1)`-st call to `next_key_id` (0-indexed:
`nthKeyId s0 0` is the first id handed out). -/
def nthKeyId (s0 : KeyIdGen) (n : Nat) : Nat := (next_key_id (genState s0 n)).1

/-! ## Auth-string serialization (proto.hpp lines 973-1005) -/

/-- Big-endian 16-bit serialization: `htons` followed by a 2-byte write. -/
def u16be (v : Nat) : List Nat := [v / 256 % 256, v % 256]

/-- `write_string_length` (proto.hpp lines 973-979): sizes above 0xFFFF
throw `proto_error("auth_string_overflow")`; otherwise the size is written
as a big-endian 16-bit quantity. -/
def write_string_length (size : Nat) : Except String (List Nat) :=
  if size > 0xFFFF then Except.error "auth_string_overflow"
  else Except.ok (u16be size)

/-- `write_auth_string` (proto.hpp lines 993-1005): a non-empty string is
written as `write_string_length(len+1)`, the string bytes, and a 0x00
terminator; an empty string is written as `write_string_length(0)`. -/
def write_auth_string (s : List Nat) : Except String (List Nat) :=
  if s.length ≠ 0 then
    (write_string_length (s.length + 1)).map (fun hdr => hdr ++ s ++ [0])
  else
    write_string_length 0

/-! ## PacketType classification (proto.hpp lines 772-866) -/

/-- The slice of ProtoContext state that the PacketType constructor
consults: endpoint role, the key ids of the live key contexts (None when the
slot is empty), and `upcoming_key_id`. -/
structure PTProto where
  is_server : Bool
  primaryKeyId : Option Nat
  secondaryKeyId : Option Nat
  upcoming_key_id : Nat
  deriving DecidableEq, Repr

def PT_DEFINED : Nat := 1

def PT_CONTROL : Nat := 2

def PT_SECONDARY : Nat := 4

def PT_SOFT_RESET : Nat := 8

structure PacketType where
  flags : Nat
  opcode : Nat
  peer_id : Int
  deriving DecidableEq, Repr

/-- The key-id examination (proto.hpp lines 850-859): the low 3 bits select
primary (`DEFINED`), secondary (`DEFINED|SECONDARY`), or — for a soft reset
matching `upcoming_key_id` — a future secondary
(`DEFINED|SECONDARY|SOFT_RESET`). -/
def keyIdFlags (proto : PTProto) (opcode kid : Nat) : Nat :=
  if proto.primaryKeyId = some kid then PT_DEFINED
  else if proto.secondaryKeyId = some kid then PT_DEFINED ||| PT_SECONDARY
  else if opcode = CONTROL_SOFT_RESET_V1 ∧ kid = proto.upcoming_key_id then
    PT_DEFINED ||| PT_SECONDARY ||| PT_SOFT_RESET
  else 0

def undefinedPacket : PacketType :=
  { flags := 0, opcode := INVALID_OPCODE, peer_id := -1 }

/-- The `PacketType` constructor (proto.hpp lines 793-861): classify an
inbound buffer from its first byte.  Early `return`s in the source leave
`flags = 0` and `opcode = INVALID_OPCODE`. -/
def packet_type (proto : PTProto) (buf : List Nat) : PacketType :=
  match buf with
  | [] => undefinedPacket
  | op :: rest =>
    let opc := opcode_extract op
    let kid := key_id_extract op
    if opc = CONTROL_SOFT_RESET_V1 ∨ opc = CONTROL_V1 ∨ opc = ACK_V1 then
      { flags := PT_CONTROL ||| keyIdFlags proto opc kid, opcode := opc, peer_id := -1 }
    else if opc = DATA_V2 then
      match rest with
      | b1 :: b2 :: b3 :: _ =>
        let opi := b1 * 2 ^ 16 + b2 * 2 ^ 8 + b3
        { flags := keyIdFlags proto opc kid, opcode := opc,
          peer_id := if opi ≠ OP_PEER_ID_UNDEF then (opi : Int) else -1 }
      | _ => undefinedPacket
    else if opc = DATA_V1 then
      { flags := keyIdFlags proto opc kid, opcode := opc, peer_id := -1 }
    else if opc = CONTROL_HARD_RESET_CLIENT_V2 then
      if proto.is_server then
        { flags := PT_CONTROL ||| keyIdFlags proto opc kid, opcode := opc, peer_id := -1 }
      else undefinedPacket
    else if opc = CONTROL_HARD_RESET_SERVER_V2 then
      if ¬ proto.is_server then
        { flags := PT_CONTROL ||| keyIdFlags proto opc kid, opcode := opc, peer_id := -1 }
      else undefinedPacket
    else undefinedPacket

/-! ## Byte readers

The C++ `Buffer` reads (`advance`, `read`, `read_alloc`, `pop_front`) throw
`BufferException` when the buffer is too short; the readers below return
`none` in that case. -/

/-- Read `n` bytes: `some (bytes, rest)` when the buffer holds at least `n`
bytes, `none` (BufferException) otherwise. -/
def readN (n : Nat) (bs : List Nat) : Option (List Nat × List Nat) :=
  if bs.length < n then none else some (bs.take n, bs.drop n)

/-- Value of 4 bytes in network (big-endian) order. -/
def dec32 (b : List Nat) : Nat :=
  match b with
  | [a, b, c, d] => a * 2 ^ 24 + b * 2 ^ 16 + c * 2 ^ 8 + d
  | _ => 0

/-- Big-endian 32-bit serialization. -/
def be32 (v : Nat) : List Nat :=
  [v / 2 ^ 24 % 256, v / 2 ^ 16 % 256, v / 2 ^ 8 % 256, v % 256]

/-- Read a network-order 32-bit quantity (`ReliableAck::read_id`,
`PacketID::read` components). -/
def read32 (bs : List Nat) : Option (Nat × List Nat) :=
  match readN 4 bs with
  | none => none
  | some (a, r) => some (dec32 a, r)

/-- Read `n` ACK ids, 4 bytes each (`ReliableAck::read`, invoked with the
1-byte count already consumed). -/
def readAcks : Nat → List Nat → Option (List Nat × List Nat)
  | 0, bs => some ([], bs)
  | n + 1, bs =>
    match read32 bs with
    | none => none
    | some (v, r) =>
      match readAcks n r with
      | none => none
      | some (vs, r2) => some (v :: vs, r2)

/-! ## Control-packet codec (claim C6)

Field layout written by `encapsulate` (proto.hpp lines 2107-2119),
`prepend_dest_psid_and_acks` (lines 2057-2073) and `gen_head` (lines
2025-2055), and read back by `decapsulate` (lines 2121-2261), tls-auth
mode, outer to inner:

`op(1) | psid_self(8) | hmac(hmacSize) | pid_id(4) pid_time(4) |
 ack_len(1) ack_ids[ack_len](4 each) | [dest_psid(8) if ack_len>0] |
 [msg_id(4) if opcode != ACK_V1] | payload`. -/

/-- Decoded fields of a well-formed control packet. -/
structure CtrlPacket where
  opcode : Nat
  key_id : Nat
  src_psid : List Nat
  hmac : List Nat
  pid_id : Nat
  pid_time : Nat
  acks : List Nat
  dest_psid : Option (List Nat)
  msg_id : Option Nat
  payload : List Nat
  deriving DecidableEq, Repr

/-- Serialize a control packet, following the write order of
`encapsulate`/`gen_head` (payload is written first and headers are
prepended; the flat result is listed outer to inner). -/
def encode_control (p : CtrlPacket) : List Nat :=
  op_compose p.opcode p.key_id ::
    (p.src_psid ++ p.hmac ++ be32 p.pid_id ++ be32 p.pid_time ++
      (p.acks.length :: p.acks.flatMap be32) ++
      (match p.dest_psid with
       | some d => d
       | none => []) ++
      (match p.msg_id with
       | some m => be32 m
       | none => []) ++
      p.payload)

/-- Parse a control packet, following the read order of `decapsulate`
(tls-auth mode): op byte, source PSID, HMAC, long-form packet id, ACK list,
destination PSID when ACKs are present, message id unless the opcode is
ACK_V1, and the remaining bytes as payload. -/
def decode_control (hmacSize : Nat) (bs : List Nat) : Option CtrlPacket :=
  match bs with
  | [] => none
  | op :: r0 =>
    match readN 8 r0 with
    | none => none
    | some (psid, r1) =>
      match readN hmacSize r1 with
      | none => none
      | some (hm, r2) =>
        match read32 r2 with
        | none => none
        | some (pidId, r3) =>
          match read32 r3 with
          | none => none
          | some (pidTime, r4) =>
            match r4 with
            | [] => none
            | ackLen :: r5 =>
              match readAcks ackLen r5 with
              | none => none
              | some (acks, r6) =>
                match (if ackLen > 0 then (readN 8 r6).map (fun q => (some q.1, q.2)) else some (none, r6) :
                        Option (Option (List Nat) × List Nat)) with
                | none => none
                | some (dest, r7) =>
                  match (if opcode_extract op ≠ ACK_V1 then (read32 r7).map (fun q => (some q.1, q.2)) else some (none, r7) :
                          Option (Option Nat × List Nat)) with
                  | none => none
                  | some (mid, r8) =>
                    some { opcode := opcode_extract op, key_id := key_id_extract op,
                           src_psid := psid, hmac := hm,
                           pid_id := pidId, pid_time := pidTime,
                           acks := acks, dest_psid := dest, msg_id := mid,
                           payload := r8 }

/-! ## Spec-modelled reliable transport and replay window

The `ReliableSend`/`ReliableRecv` windows and the `PacketIDReceive` replay
tracker live in `openvpn/reliable/*` and `openvpn/crypto/packet_id.hpp`,
which are not part of this repository; only their call sites in proto.hpp
are.  They are modelled from the specification text. -/

/-- Modelled from the spec (section 3, packet id): a long-form packet id is
a 4-byte counter plus 4-byte epoch seconds. -/
structure PacketID where
  pid : Nat
  time : Nat
  deriving DecidableEq, Repr

/-- Modelled from the spec: a packet id with a zero counter never went
through the send-side monotone increment, so it is treated as invalid
(`PacketID::is_valid` in the missing packet_id.hpp). -/
def pid_is_valid (p : PacketID) : Bool := p.pid ≠ 0

/-- Modelled from the spec (section 3): the replay window "rejects any
packet-id it has previously seen or that is older than the window's low
watermark"; `lo` is the low watermark and `seen` the ids recorded so far.
Stands in for the missing `PacketIDReceive`. -/
structure PidRecv where
  lo : Nat
  seen : List Nat
  deriving DecidableEq, Repr

/-- Modelled from the spec: `PacketIDReceive::test_add` — test whether a
received packet id passes the replay window, and record it when `mod` is
true.  A pass requires a valid id at or above the low watermark that has
not been seen before. -/
def pid_test_add (w : PidRecv) (p : PacketID) (mod : Bool) : Bool × PidRecv :=
  let ok := pid_is_valid p && decide (p.pid ≥ w.lo) && !(w.seen.contains p.pid)
  if mod && ok then (ok, { w with seen := p.pid :: w.seen }) else (ok, w)

/-- Modelled from the spec (section 4.3): the reliable receive window — a
set of pending message ids bounded by the window size, with a low
watermark. Stands in for the missing `ReliableRecv`. -/
structure RelRecv where
  lo : Nat
  wsize : Nat
  stored : List Nat
  deriving DecidableEq, Repr

def ACK_TO_SENDER : Nat := 1

def IN_WINDOW : Nat := 2

/-- Modelled from the spec: advance the low watermark past contiguous
stored ids (delivery of contiguous packets to the handshake bridge). -/
def advance_watermark (stored : List Nat) : Nat → Nat → Nat
  | lo, 0 => lo
  | lo, fuel + 1 => if stored.contains lo then advance_watermark stored (lo + 1) fuel else lo

/-- Modelled from the spec (section 4.3 receive window): an id below the
low watermark is ACKed but not delivered; an id in the window and not
already present is stored and ACKed, and when it equals the low watermark
it is `IN_WINDOW` and the watermark advances; an id above the window is
dropped silently. Stands in for the missing `ReliableRecv::receive`. -/
def rel_receive (w : RelRecv) (id : Nat) : Nat × RelRecv :=
  if id < w.lo then (ACK_TO_SENDER, w)
  else if id < w.lo + w.wsize then
    if w.stored.contains id then (ACK_TO_SENDER, w)
    else
      let stored2 := id :: w.stored
      if id = w.lo then
        (ACK_TO_SENDER ||| IN_WINDOW,
         { w with stored := stored2, lo := advance_watermark stored2 w.lo (stored2.length + 1) })
      else (ACK_TO_SENDER, { w with stored := stored2 })
  else (0, w)

/-- Modelled from the spec (section 4.3 send window): the ids of
unacknowledged outbound control packets. Stands in for the missing
`ReliableSend`; on ACK receipt all listed ids are erased. -/
def rel_send_ack (sendWin : List Nat) (ids : List Nat) : List Nat :=
  sendWin.filter (fun i => !(ids.contains i))

/-! ## ProtoContext / KeyContext state touched by control-packet receive -/

/-- The ProtoContext state that `decapsulate` can read or mutate: session
ids, keepalive deadline, tls-auth replay window, and the stats sink
(proto.hpp data members, lines 3086-3111). -/
structure ProtoSt where
  psid_self : List Nat
  psid_peer : Option (List Nat)
  keepalive_expire : Nat
  keepalive_timeout : Nat
  ta_pid_recv : PidRecv
  stats : List Err
  deriving DecidableEq, Repr

/-- The KeyContext state that `decapsulate` can mutate: the reliable send
and receive windows, the transmit-ACK list, and the invalidation flag. -/
structure KeySt where
  rel_send : List Nat
  rel_recv : RelRecv
  xmit_acks : List Nat
  invalid : Option Err
  deriving DecidableEq, Repr

/-- `proto.stats->error(e)`: count an error in the session stats sink. -/
def stat_error (p : ProtoSt) (e : Err) : ProtoSt := { p with stats := e :: p.stats }

/-- Modelled from the spec: `ProtoStackBase::invalidate` (protostack.hpp is
not part of this repository) marks the key context invalid, keeping the
first recorded reason. -/
def kc_invalidate (kc : KeySt) (e : Err) : KeySt :=
  match kc.invalid with
  | some _ => kc
  | none => { kc with invalid := some e }

/-- `update_last_received` (proto.hpp lines 2839-2842):
`keepalive_expire = *now_ + config->keepalive_timeout`. -/
def update_last_received (t : Nat) (p : ProtoSt) : ProtoSt :=
  { p with keepalive_expire := t + p.keepalive_timeout }

/-- Result of `decapsulate`: the boolean return value, the post states, and
the remaining buffer contents. -/
structure Decaps where
  accepted : Bool
  proto : ProtoSt
  kc : KeySt
  payload : List Nat
  deriving DecidableEq, Repr

/-- The `catch (BufferException&)` handler of `decapsulate` (proto.hpp
lines 2254-2259): count BUFFER_ERROR, invalidate the key context on TCP,
return false. -/
def decaps_buffer_error (isTcp : Bool) (p : ProtoSt) (kc : KeySt) : Decaps :=
  { accepted := false, proto := stat_error p .BUFFER_ERROR,
    kc := if isTcp then kc_invalidate kc .BUFFER_ERROR else kc, payload := [] }

/-- `verify_src_psid` (proto.hpp lines 2075-2092): once `psid_peer` is
learned every packet must match or CC_ERROR is counted (invalidating on
TCP); the first packet sets `psid_peer`. -/
def verify_src_psid (isTcp : Bool) (src : List Nat) (p : ProtoSt) (kc : KeySt) :
    Bool × ProtoSt × KeySt :=
  match p.psid_peer with
  | some peer =>
    if peer = src then (true, p, kc)
    else (false, stat_error p .CC_ERROR, if isTcp then kc_invalidate kc .CC_ERROR else kc)
  | none => (true, { p with psid_peer := some src }, kc)

/-- `verify_dest_psid` (proto.hpp lines 2094-2105): the destination PSID in
an ACK-carrying packet must equal `psid_self`. -/
def verify_dest_psid (isTcp : Bool) (dest : List Nat) (p : ProtoSt) (kc : KeySt) :
    Bool × ProtoSt × KeySt :=
  if p.psid_self = dest then (true, p, kc)
  else (false, stat_error p .CC_ERROR, if isTcp then kc_invalidate kc .CC_ERROR else kc)

/-- The control-message part of `decapsulate` in tls-auth mode (proto.hpp
lines 2177-2212): read the message id, push it into the reliable receive
window when the replay check passed, queue ACKs, and record the tls-auth
packet id only when the packet was accepted in-window; a replayed packet
counts REPLAY_ERROR and is still ACKed when its id is valid.  ACK_V1
packets only record the packet id (or count REPLAY_ERROR). -/
def decap_tls_tail (isTcp : Bool) (opcode : Nat) (pid : PacketID) (pid_ok : Bool)
    (p : ProtoSt) (kc : KeySt) (r : List Nat) : Decaps :=
  if opcode ≠ ACK_V1 then
    match read32 r with
    | none => decaps_buffer_error isTcp p kc
    | some (id, r8) =>
      if pid_ok then
        let rf := rel_receive kc.rel_recv id
        let kc1 := { kc with rel_recv := rf.2 }
        let kc2 := if rf.1 &&& ACK_TO_SENDER ≠ 0 then
                     { kc1 with xmit_acks := kc1.xmit_acks ++ [id] } else kc1
        if rf.1 &&& IN_WINDOW ≠ 0 then
          { accepted := true,
            proto := { p with ta_pid_recv := (pid_test_add p.ta_pid_recv pid true).2 },
            kc := kc2, payload := r8 }
        else { accepted := false, proto := p, kc := kc2, payload := r8 }
      else
        let p1 := stat_error p .REPLAY_ERROR
        let kc1 := if pid_is_valid pid then { kc with xmit_acks := kc.xmit_acks ++ [id] } else kc
        { accepted := false, proto := p1, kc := kc1, payload := r8 }
  else
    if pid_ok then
      { accepted := false,
        proto := { p with ta_pid_recv := (pid_test_add p.ta_pid_recv pid true).2 },
        kc := kc, payload := r }
    else
      { accepted := false, proto := stat_error p .REPLAY_ERROR, kc := kc, payload := r }

/-- The part of `decapsulate` in tls-auth mode that runs after the HMAC has
verified (proto.hpp lines 2152-2205): update the keepalive deadline, verify
the source PSID, read and replay-test the long-form packet id, process the
peer's ACK list against the reliable send window, verify the destination
PSID when ACKs are present, then handle the control message. -/
def decap_tls_body (isTcp : Bool) (opcode : Nat) (src_psid : List Nat) (t : Nat)
    (p0 : ProtoSt) (kc0 : KeySt) (r3 : List Nat) : Decaps :=
  let p := update_last_received t p0
  let v := verify_src_psid isTcp src_psid p kc0
  if !v.1 then { accepted := false, proto := v.2.1, kc := v.2.2, payload := r3 }
  else
    let p1 := v.2.1
    let kc1 := v.2.2
    match read32 r3 with
    | none => decaps_buffer_error isTcp p1 kc1
    | some (pidId, r4a) =>
      match read32 r4a with
      | none => decaps_buffer_error isTcp p1 kc1
      | some (pidTime, r4) =>
        let pid : PacketID := ⟨pidId, pidTime⟩
        let pid_ok := (pid_test_add p1.ta_pid_recv pid false).1
        match r4 with
        | [] => decaps_buffer_error isTcp p1 kc1
        | ackLen :: r5 =>
          match readAcks ackLen r5 with
          | none => decaps_buffer_error isTcp p1 kc1
          | some (ackIds, r6) =>
            let kc2 := if pid_ok then
                         { kc1 with rel_send := rel_send_ack kc1.rel_send ackIds } else kc1
            if ackLen > 0 then
              match readN 8 r6 with
              | none => decaps_buffer_error isTcp p1 kc2
              | some (dest, r7) =>
                let w := verify_dest_psid isTcp dest p1 kc2
                if !w.1 then { accepted := false, proto := w.2.1, kc := w.2.2, payload := r7 }
                else decap_tls_tail isTcp opcode pid pid_ok w.2.1 w.2.2 r7
            else
              decap_tls_tail isTcp opcode pid pid_ok p1 kc2 r6

/-- The control-message part of `decapsulate` without tls-auth (proto.hpp
lines 2235-2251): no replay window is involved. -/
def decap_plain_tail (isTcp : Bool) (opcode : Nat) (p : ProtoSt) (kc : KeySt)
    (r : List Nat) : Decaps :=
  if opcode ≠ ACK_V1 then
    match read32 r with
    | none => decaps_buffer_error isTcp p kc
    | some (id, r8) =>
      let rf := rel_receive kc.rel_recv id
      let kc1 := { kc with rel_recv := rf.2 }
      let kc2 := if rf.1 &&& ACK_TO_SENDER ≠ 0 then
                   { kc1 with xmit_acks := kc1.xmit_acks ++ [id] } else kc1
      if rf.1 &&& IN_WINDOW ≠ 0 then
        { accepted := true, proto := p, kc := kc2, payload := r8 }
      else { accepted := false, proto := p, kc := kc2, payload := r8 }
  else { accepted := false, proto := p, kc := kc, payload := r }

/-- `KeyContext::decapsulate` (proto.hpp lines 2121-2261).  `hmacCmp` is
the external `ta_hmac_recv->ovpn_hmac_cmp` applied to the whole packet;
`isTcp` is `proto.is_tcp()`; `t` is `now->seconds_since_epoch()`.  In
tls-auth mode the layout is op(1) | src_psid(8) | hmac(hmacSize) | rest;
the HMAC must verify before any protocol state is touched.  Without
tls-auth the keepalive deadline is updated first and the packet is op(1) |
src_psid(8) | rest. -/
def decapsulate (hmacCmp : List Nat → Bool) (isTcp useTlsAuth : Bool) (hmacSize : Nat)
    (t : Nat) (opcode : Nat) (p0 : ProtoSt) (kc0 : KeySt) (buf : List Nat) : Decaps :=
  if useTlsAuth then
    match readN 1 buf with
    | none => decaps_buffer_error isTcp p0 kc0
    | some (_, r1) =>
      match readN 8 r1 with
      | none => decaps_buffer_error isTcp p0 kc0
      | some (src_psid, r2) =>
        match readN hmacSize r2 with
        | none => decaps_buffer_error isTcp p0 kc0
        | some (_, r3) =>
          if !(hmacCmp buf) then
            { accepted := false, proto := stat_error p0 .HMAC_ERROR,
              kc := if isTcp then kc_invalidate kc0 .HMAC_ERROR else kc0, payload := r3 }
          else
            decap_tls_body isTcp opcode src_psid t p0 kc0 r3
  else
    let p := update_last_received t p0
    match readN 1 buf with
    | none => decaps_buffer_error isTcp p kc0
    | some (_, r1) =>
      match readN 8 r1 with
      | none => decaps_buffer_error isTcp p kc0
      | some (src_psid, r2) =>
        let v := verify_src_psid isTcp src_psid p kc0
        if !v.1 then { accepted := false, proto := v.2.1, kc := v.2.2, payload := r2 }
        else
          let p1 := v.2.1
          let kc1 := v.2.2
          match r2 with
          | [] => decaps_buffer_error isTcp p1 kc1
          | ackLen :: r5 =>
            match readAcks ackLen r5 with
            | none => decaps_buffer_error isTcp p1 kc1
            | some (ackIds, r6) =>
              let kc2 := { kc1 with rel_send := rel_send_ack kc1.rel_send ackIds }
              if ackLen > 0 then
                match readN 8 r6 with
                | none => decaps_buffer_error isTcp p1 kc2
                | some (dest, r7) =>
                  let w := verify_dest_psid isTcp dest p1 kc2
                  if !w.1 then { accepted := false, proto := w.2.1, kc := w.2.2, payload := r7 }
                  else decap_plain_tail isTcp opcode w.2.1 w.2.2 r7
              else decap_plain_tail isTcp opcode p1 kc2 r6

/-! ## Data-channel encrypt / decrypt (proto.hpp lines 1335-1396, 1658-1691) -/

/-- The KeyContext state consulted by the data-channel hot path: the
negotiation state, whether a crypto context is defined
(`crypto_flags & CRYPTO_DEFINED`), and the invalidation flag. -/
structure KeyCtx where
  state : Int
  crypto_defined : Bool
  invalid : Option Err
  deriving DecidableEq, Repr

/-- Modelled from the spec: `ProtoStackBase::invalidate` on the
data-channel view of the key context (protostack.hpp is not part of this
repository), keeping the first recorded reason. -/
def kcx_invalidate (kc : KeyCtx) (e : Err) : KeyCtx :=
  match kc.invalid with
  | some _ => kc
  | none => { kc with invalid := some e }

/-- The guard shared by `encrypt` and `decrypt` (proto.hpp lines 1337-1339
and 1359-1361): `state >= ACTIVE && (crypto_flags & CRYPTO_DEFINED) &&
!invalidated()`. -/
def kc_ready (kc : KeyCtx) : Bool :=
  decide (kc.state ≥ ACTIVE) && kc.crypto_defined && kc.invalid.isNone

/-- `do_encrypt` (proto.hpp lines 1658-1691): compress, encrypt through the
cipher instance (`cryptoEnc`, external), and prepend either the 4-byte
op32 header (DATA_V2) or the 1-byte DATA_V1 header. -/
def do_encrypt (enable_op32 : Bool) (key_id remote_peer_id : Nat)
    (compressor : Option (List Nat → List Nat)) (cryptoEnc : List Nat → List Nat)
    (buf : List Nat) : List Nat :=
  let b1 := match compressor with
    | some f => f buf
    | none => buf
  if enable_op32 then
    be32 (op32_compose DATA_V2 key_id remote_peer_id) ++ cryptoEnc b1
  else
    op_compose DATA_V1 key_id :: cryptoEnc b1

/-- `KeyContext::encrypt` (proto.hpp lines 1335-1353): when the context is
not ready the buffer is truncated to zero size (`buf.reset_size()`) and no
error is counted; otherwise the packet goes through `do_encrypt`.  Returns
the output buffer and the stats sink. -/
def kc_encrypt (enable_op32 : Bool) (key_id remote_peer_id : Nat)
    (compressor : Option (List Nat → List Nat)) (cryptoEnc : List Nat → List Nat)
    (kc : KeyCtx) (stats : List Err) (buf : List Nat) : List Nat × List Err :=
  if kc_ready kc then
    (do_encrypt enable_op32 key_id remote_peer_id compressor cryptoEnc buf, stats)
  else ([], stats)

/-- Result of `KeyContext::decrypt`. -/
structure DecryptOut where
  buf : List Nat
  kc : KeyCtx
  stats : List Err
  deriving DecidableEq, Repr

/-- `KeyContext::decrypt` (proto.hpp lines 1356-1396).  `cryptoDec` is the
external cipher instance (`crypto->decrypt`), returning an optional error
and the post-decrypt buffer contents.  A not-ready context truncates the
buffer and raises nothing; a cipher error is counted and, on TCP with
DECRYPT_ERROR or HMAC_ERROR, invalidates the key context; a too-short
buffer raises BUFFER_ERROR (invalidating on TCP). -/
def kc_decrypt (isTcp : Bool) (cryptoDec : List Nat → Option Err × List Nat)
    (decompress : Option (List Nat → List Nat))
    (kc : KeyCtx) (stats : List Err) (buf : List Nat) : DecryptOut :=
  if kc_ready kc then
    match buf with
    | [] =>
      { buf := [], kc := if isTcp then kcx_invalidate kc .BUFFER_ERROR else kc,
        stats := .BUFFER_ERROR :: stats }
    | b0 :: _ =>
      let head := op_head_size b0
      if buf.length < head then
        { buf := [], kc := if isTcp then kcx_invalidate kc .BUFFER_ERROR else kc,
          stats := .BUFFER_ERROR :: stats }
      else
        let d := cryptoDec (buf.drop head)
        let stats2 := match d.1 with
          | some e => e :: stats
          | none => stats
        let kc2 := match d.1 with
          | some e =>
            if isTcp ∧ (e = .DECRYPT_ERROR ∨ e = .HMAC_ERROR) then kcx_invalidate kc e else kc
          | none => kc
        let b3 := match decompress with
          | some f => f d.2
          | none => d.2
        { buf := b3, kc := kc2, stats := stats2 }
  else { buf := [], kc := kc, stats := stats }

/-- Result of `ProtoContext::data_decrypt`. -/
structure DataDecOut where
  ret : Bool
  buf : List Nat
  kc : KeyCtx
  proto : ProtoSt
  deriving DecidableEq, Repr

/-- `ProtoContext::data_decrypt` (proto.hpp lines 2637-2659) after the key
context has been selected by `select_key_context`: decrypt, update the
keepalive deadline when the result is non-empty, and discard keepalive
magic packets by resetting the buffer to zero size. -/
def data_decrypt (isTcp : Bool) (cryptoDec : List Nat → Option Err × List Nat)
    (decompress : Option (List Nat → List Nat)) (t : Nat)
    (p : ProtoSt) (kc : KeyCtx) (buf : List Nat) : DataDecOut :=
  let d := kc_decrypt isTcp cryptoDec decompress kc p.stats buf
  let p1 := { p with stats := d.stats }
  let rp := if d.buf.length ≠ 0 then (true, update_last_received t p1) else (false, p1)
  let out := if is_keepalive d.buf then [] else d.buf
  { ret := rp.1, buf := out, kc := d.kc, proto := rp.2 }

/-- Modelled from the spec (section 4.5 step 4): the consumer of the
data_decrypt output surfaces an exit signal when the payload equals the
explicit-exit-notify magic; that consumer is not part of this repository
(only the magic constant, proto.hpp lines 140-148, is). -/
def surfaces_exit_signal (buf : List Nat) : Bool := buf == explicit_exit_notify_message

/-! ## Keepalive housekeeping (proto.hpp lines 2903-2919) -/

/-- The ProtoContext state touched by `keepalive_housekeeping`:
the two timer deadlines, the key-context slots, and the stats sink. -/
structure KHState where
  keepalive_xmit : Nat
  keepalive_expire : Nat
  primary : Option KeyCtx
  secondary : Option KeyCtx
  stats : List Err
  deriving DecidableEq, Repr

/-- `disconnect` (proto.hpp lines 2662-2668): invalidate both key
contexts. -/
def kh_disconnect (e : Err) (s : KHState) : KHState :=
  { s with primary := s.primary.map (fun k => kcx_invalidate k e),
           secondary := s.secondary.map (fun k => kcx_invalidate k e) }

/-- `keepalive_housekeeping` (proto.hpp lines 2903-2919): send a keepalive
and reschedule `keepalive_xmit` when due (`update_last_sent`, lines
2679-2682); when `now >= keepalive_expire`, count KEEPALIVE_TIMEOUT and
disconnect. -/
def keepalive_housekeeping (tnow ping : Nat) (s : KHState) : KHState :=
  let s1 := if decide (tnow ≥ s.keepalive_xmit) && s.primary.isSome then
              { s with keepalive_xmit := tnow + ping }
            else s
  if tnow ≥ s1.keepalive_expire then
    kh_disconnect .KEEPALIVE_TIMEOUT { s1 with stats := .KEEPALIVE_TIMEOUT :: s1.stats }
  else s1

/-! ## Control-channel network send (proto.hpp lines 1898-1902) -/

/-- The send categories of `ProtoStackBase::net_send` (protostack.hpp,
declared outside this repository; only `NET_SEND_RETRANSMIT` is consulted
by proto.hpp). -/
inductive NetSendType where
  | NET_SEND_SSL
  | NET_SEND_RAW
  | NET_SEND_ACK
  | NET_SEND_RETRANSMIT
  deriving DecidableEq, Repr

/-- `KeyContext::net_send` (proto.hpp lines 1898-1902): the packet is
forwarded to `proto.net_send` (the network) unless the transport is
reliable and the send is a retransmission — "retransmit packets on UDP
only, not TCP".  Returns whether the packet reaches the network. -/
def net_send (is_reliable : Bool) (nstype : NetSendType) : Bool :=
  !is_reliable || decide (nstype ≠ NetSendType.NET_SEND_RETRANSMIT)

/-! ## Concrete inputs used by witnesses and counterexamples -/

/-- An HMAC comparator that rejects every packet (concrete stand-in for a
mismatching tls-auth key). -/
def hmacRejectAll : List Nat → Bool := fun _ => false

/-- An HMAC comparator that accepts every packet. -/
def hmacAcceptAll : List Nat → Bool := fun _ => true

def protoW : ProtoSt :=
  { psid_self := List.replicate 8 1, psid_peer := none, keepalive_expire := 0,
    keepalive_timeout := 40, ta_pid_recv := { lo := 1, seen := [] }, stats := [] }

def keyStW : KeySt :=
  { rel_send := [], rel_recv := { lo := 0, wsize := 4, stored := [] },
    xmit_acks := [], invalid := none }

def keyCtxReady : KeyCtx := { state := ACTIVE, crypto_defined := true, invalid := none }

def keyCtxInitial : KeyCtx := { state := C_INITIAL, crypto_defined := false, invalid := none }

/-- A 13-byte packet: 1 op byte, 8 PSID bytes, 4 HMAC bytes — just enough
to reach the HMAC check with `hmacSize = 4`. -/
def pktW : List Nat := List.replicate 13 0

/-- A concrete well-formed control packet for the codec round trip:
op byte 33 (CONTROL_V1, key-id 1), source PSID, a 2-byte HMAC, long-form
packet id 5 at epoch 6, one ACK (id 7), destination PSID, message id 3,
1-byte payload. -/
def ctrlBytesW : List Nat :=
  [33] ++ [1, 2, 3, 4, 5, 6, 7, 8] ++ [9, 9] ++ [0, 0, 0, 5] ++ [0, 0, 0, 6] ++
    [1] ++ [0, 0, 0, 7] ++ [11, 12, 13, 14, 15, 16, 17, 18] ++ [0, 0, 0, 3] ++ [42]

def ctrlPacketW : CtrlPacket :=
  { opcode := CONTROL_V1, key_id := 1, src_psid := [1, 2, 3, 4, 5, 6, 7, 8],
    hmac := [9, 9], pid_id := 5, pid_time := 6, acks := [7],
    dest_psid := some [11, 12, 13, 14, 15, 16, 17, 18], msg_id := some 3,
    payload := [42] }

/-
=======================================================================
Theorems
=======================================================================
-/

/-! ## Helper lemmas -/

theorem genState_upcoming (s0 : KeyIdGen) (n : Nat) :
    (genState (resetKeyIds s0) n).upcoming_key_id =
      if n = 0 then 0 else (n - 1) % 7 + 1 := by
  induction n with
  | zero => rfl
  | succ n ih =>
    have step : (genState (resetKeyIds s0) (n + 1)).upcoming_key_id =
        if ((genState (resetKeyIds s0) n).upcoming_key_id + 1) % (KEY_ID_MASK + 1) = 0 then 1
        else ((genState (resetKeyIds s0) n).upcoming_key_id + 1) % (KEY_ID_MASK + 1) := rfl
    rw [step, ih]
    simp only [KEY_ID_MASK]
    by_cases h : n = 0
    · subst h; norm_num
    · simp only [if_neg h, if_neg (Nat.succ_ne_zero n), Nat.add_sub_cancel]
      split <;> omega

theorem genState_count (s0 : KeyIdGen) (n : Nat) :
    (genState (resetKeyIds s0) n).n_key_ids = s0.n_key_ids + n := by
  induction n with
  | zero => rfl
  | succ n ih =>
    have step : (genState (resetKeyIds s0) (n + 1)).n_key_ids =
        (genState (resetKeyIds s0) n).n_key_ids + 1 := rfl
    rw [step, ih]
    omega

theorem write_auth_string_overflow_of (s : List Nat) (h : s.length = 0xFFFF) :
    write_auth_string s = Except.error "auth_string_overflow" := by
  have h0 : s.length ≠ 0 := by omega
  have hgt : s.length + 1 > 0xFFFF := by omega
  simp [write_auth_string, write_string_length, h0, hgt, Except.map]

/-! ## Claim C3 -/

/-- C3: after a reset, the n-th value returned by `next_key_id` is 0 for
n = 0 and thereafter cycles `1..7` monotonically with wrap skipping 0 (the
sequence is 0, 1, ..., 7, 1, 2, ..., 7, 1, ... and 0 never reappears,
since `(n - 1) % 7 + 1` is never 0); `n_key_ids` counts the number of ids
handed out. -/
theorem next_key_id_cycle (s0 : KeyIdGen) (n : Nat) :
    nthKeyId (resetKeyIds s0) n = (if n = 0 then 0 else (n - 1) % 7 + 1) ∧
    (genState (resetKeyIds s0) n).n_key_ids = s0.n_key_ids + n := by
  refine ⟨?_, genState_count s0 n⟩
  show (genState (resetKeyIds s0) n).upcoming_key_id = _
  exact genState_upcoming s0 n

theorem keyIdFlags_primary (proto : PTProto) (opc kid : Nat)
    (h : proto.primaryKeyId = some kid) : keyIdFlags proto opc kid = PT_DEFINED := by
  simp [keyIdFlags, h]

theorem keyIdFlags_secondary (proto : PTProto) (opc kid : Nat)
    (h1 : proto.primaryKeyId ≠ some kid) (h2 : proto.secondaryKeyId = some kid) :
    keyIdFlags proto opc kid = (PT_DEFINED ||| PT_SECONDARY) := by
  simp [keyIdFlags, h1, h2]

theorem keyIdFlags_upcoming (proto : PTProto) (kid : Nat)
    (h1 : proto.primaryKeyId ≠ some kid) (h2 : proto.secondaryKeyId ≠ some kid)
    (h3 : kid = proto.upcoming_key_id) :
    keyIdFlags proto CONTROL_SOFT_RESET_V1 kid
      = (PT_DEFINED ||| PT_SECONDARY ||| PT_SOFT_RESET) := by
  subst h3
  simp [keyIdFlags, h1, h2]

theorem keyIdFlags_cases (proto : PTProto) (opc kid : Nat) :
    keyIdFlags proto opc kid = PT_DEFINED ∨
    keyIdFlags proto opc kid = (PT_DEFINED ||| PT_SECONDARY) ∨
    keyIdFlags proto opc kid = (PT_DEFINED ||| PT_SECONDARY ||| PT_SOFT_RESET) ∨
    keyIdFlags proto opc kid = 0 := by
  unfold keyIdFlags
  split
  · exact Or.inl rfl
  split
  · exact Or.inr (Or.inl rfl)
  split
  · exact Or.inr (Or.inr (Or.inl rfl))
  · exact Or.inr (Or.inr (Or.inr rfl))

theorem packet_type_ctrl_eq (proto : PTProto) (op : Nat) (rest : List Nat)
    (h : opcode_extract op = CONTROL_SOFT_RESET_V1 ∨ opcode_extract op = CONTROL_V1 ∨
      opcode_extract op = ACK_V1) :
    packet_type proto (op :: rest) =
      { flags := PT_CONTROL ||| keyIdFlags proto (opcode_extract op) (key_id_extract op),
        opcode := opcode_extract op, peer_id := -1 } := by
  rcases h with h | h | h <;>
    simp [packet_type, h, CONTROL_SOFT_RESET_V1, CONTROL_V1, ACK_V1]

/-- The key-id examination applies to every packet that survives the
opcode examination: a control opcode, DATA_V1, a DATA_V2 of at least 4
bytes, or a hard reset accepted by the endpoint's role.  For all of them
the key-context-selection bits of the flags equal `keyIdFlags`
(proto.hpp lines 850-859). -/
theorem packet_type_keyflags (proto : PTProto) (op : Nat) (rest : List Nat)
    (hsurv : opcode_extract op = CONTROL_SOFT_RESET_V1 ∨ opcode_extract op = CONTROL_V1 ∨
      opcode_extract op = ACK_V1 ∨ opcode_extract op = DATA_V1 ∨
      (opcode_extract op = DATA_V2 ∧ 3 ≤ rest.length) ∨
      (opcode_extract op = CONTROL_HARD_RESET_CLIENT_V2 ∧ proto.is_server = true) ∨
      (opcode_extract op = CONTROL_HARD_RESET_SERVER_V2 ∧ proto.is_server = false)) :
    (packet_type proto (op :: rest)).flags &&& (PT_DEFINED ||| PT_SECONDARY ||| PT_SOFT_RESET)
      = keyIdFlags proto (opcode_extract op) (key_id_extract op) := by
  have hk := keyIdFlags_cases proto (opcode_extract op) (key_id_extract op)
  rcases hsurv with h | h | h | h | ⟨h, hlen⟩ | ⟨h, hrole⟩ | ⟨h, hrole⟩
  · rw [packet_type_ctrl_eq proto op rest (Or.inl h)]
    rcases hk with hk | hk | hk | hk <;> simp only [hk] <;> decide
  · rw [packet_type_ctrl_eq proto op rest (Or.inr (Or.inl h))]
    rcases hk with hk | hk | hk | hk <;> simp only [hk] <;> decide
  · rw [packet_type_ctrl_eq proto op rest (Or.inr (Or.inr h))]
    rcases hk with hk | hk | hk | hk <;> simp only [hk] <;> decide
  · rw [show packet_type proto (op :: rest) =
        { flags := keyIdFlags proto (opcode_extract op) (key_id_extract op),
          opcode := opcode_extract op, peer_id := -1 } from by
      simp [packet_type, h, CONTROL_SOFT_RESET_V1, CONTROL_V1, ACK_V1, DATA_V1, DATA_V2]]
    rcases hk with hk | hk | hk | hk <;> simp only [hk] <;> decide
  · rcases rest with _ | ⟨b1, rest⟩
    · simp at hlen
    rcases rest with _ | ⟨b2, rest⟩
    · simp at hlen
    rcases rest with _ | ⟨b3, rest⟩
    · simp at hlen
    rw [show packet_type proto (op :: b1 :: b2 :: b3 :: rest) =
        { flags := keyIdFlags proto (opcode_extract op) (key_id_extract op),
          opcode := opcode_extract op,
          peer_id := if b1 * 2 ^ 16 + b2 * 2 ^ 8 + b3 ≠ OP_PEER_ID_UNDEF
                     then ((b1 * 2 ^ 16 + b2 * 2 ^ 8 + b3 : Nat) : Int) else -1 } from by
      simp [packet_type, h, CONTROL_SOFT_RESET_V1, CONTROL_V1, ACK_V1, DATA_V2]]
    rcases hk with hk | hk | hk | hk <;> simp only [hk] <;> decide
  · rw [show packet_type proto (op :: rest) =
        { flags := PT_CONTROL ||| keyIdFlags proto (opcode_extract op) (key_id_extract op),
          opcode := opcode_extract op, peer_id := -1 } from by
      simp [packet_type, h, hrole, CONTROL_SOFT_RESET_V1, CONTROL_V1, ACK_V1, DATA_V1,
        DATA_V2, CONTROL_HARD_RESET_CLIENT_V2, CONTROL_HARD_RESET_SERVER_V2]]
    rcases hk with hk | hk | hk | hk <;> simp only [hk] <;> decide
  · rw [show packet_type proto (op :: rest) =
        { flags := PT_CONTROL ||| keyIdFlags proto (opcode_extract op) (key_id_extract op),
          opcode := opcode_extract op, peer_id := -1 } from by
      simp [packet_type, h, hrole, CONTROL_SOFT_RESET_V1, CONTROL_V1, ACK_V1, DATA_V1,
        DATA_V2, CONTROL_HARD_RESET_CLIENT_V2, CONTROL_HARD_RESET_SERVER_V2]]
    rcases hk with hk | hk | hk | hk <;> simp only [hk] <;> decide

/-! ## Claim C4 -/

/-- C4 counterexample: the claim's key-id selection rule does not hold for
every inbound buffer — a DATA_V2 packet shorter than 4 bytes returns early
(proto.hpp lines 816-817) before the key-id examination, so a 1-byte
DATA_V2 whose low 3 bits equal the primary's key id is classified invalid
(flags 0, not DEFINED). -/
theorem data_v2_short_primary_undefined :
    (packet_type ⟨true, some 1, none, 2⟩ [op_compose DATA_V2 1]).flags &&& PT_DEFINED = 0 ∧
    (⟨true, some 1, none, 2⟩ : PTProto).primaryKeyId
      = some (key_id_extract (op_compose DATA_V2 1)) := by decide

/-- C4 (amended): PacketType classification (proto.hpp lines 772-866).  A
zero-length buffer is not DEFINED; CONTROL_HARD_RESET_CLIENT_V2 is
accepted (marked CONTROL) only by a server and CONTROL_HARD_RESET_SERVER_V2
only by a client; a DATA_V2 shorter than 4 bytes is classified invalid
regardless of its key-id bits; and for every buffer that survives the
opcode examination (control opcode, DATA_V1, DATA_V2 of at least 4 bytes,
or role-accepted hard reset) the low 3 bits of the first byte select the
key context: a primary match gives exactly DEFINED, a secondary match
DEFINED|SECONDARY, and a CONTROL_SOFT_RESET_V1 whose bits equal
`upcoming_key_id` gives DEFINED|SECONDARY|SOFT_RESET. -/
theorem packet_type_classification (proto : PTProto) (op : Nat) (rest : List Nat) :
    ((packet_type proto []).flags &&& PT_DEFINED = 0) ∧
    (opcode_extract op = CONTROL_HARD_RESET_CLIENT_V2 →
      (proto.is_server = false → packet_type proto (op :: rest) = undefinedPacket) ∧
      (proto.is_server = true →
        (packet_type proto (op :: rest)).flags &&& PT_CONTROL = PT_CONTROL)) ∧
    (opcode_extract op = CONTROL_HARD_RESET_SERVER_V2 →
      (proto.is_server = true → packet_type proto (op :: rest) = undefinedPacket) ∧
      (proto.is_server = false →
        (packet_type proto (op :: rest)).flags &&& PT_CONTROL = PT_CONTROL)) ∧
    (opcode_extract op = DATA_V2 → rest.length < 3 →
      packet_type proto (op :: rest) = undefinedPacket) ∧
    ((opcode_extract op = CONTROL_SOFT_RESET_V1 ∨ opcode_extract op = CONTROL_V1 ∨
        opcode_extract op = ACK_V1 ∨ opcode_extract op = DATA_V1 ∨
        (opcode_extract op = DATA_V2 ∧ 3 ≤ rest.length) ∨
        (opcode_extract op = CONTROL_HARD_RESET_CLIENT_V2 ∧ proto.is_server = true) ∨
        (opcode_extract op = CONTROL_HARD_RESET_SERVER_V2 ∧ proto.is_server = false)) →
      (proto.primaryKeyId = some (key_id_extract op) →
        (packet_type proto (op :: rest)).flags
            &&& (PT_DEFINED ||| PT_SECONDARY ||| PT_SOFT_RESET) = PT_DEFINED) ∧
      (proto.primaryKeyId ≠ some (key_id_extract op) →
        proto.secondaryKeyId = some (key_id_extract op) →
        (packet_type proto (op :: rest)).flags
            &&& (PT_DEFINED ||| PT_SECONDARY ||| PT_SOFT_RESET)
          = (PT_DEFINED ||| PT_SECONDARY)) ∧
      (opcode_extract op = CONTROL_SOFT_RESET_V1 →
        proto.primaryKeyId ≠ some (key_id_extract op) →
        proto.secondaryKeyId ≠ some (key_id_extract op) →
        key_id_extract op = proto.upcoming_key_id →
        (packet_type proto (op :: rest)).flags
            &&& (PT_DEFINED ||| PT_SECONDARY ||| PT_SOFT_RESET)
          = (PT_DEFINED ||| PT_SECONDARY ||| PT_SOFT_RESET))) := by
  refine ⟨?_, fun h => ⟨fun hs => ?_, fun hs => ?_⟩, fun h => ⟨fun hs => ?_, fun hs => ?_⟩,
    fun h hlen => ?_, fun hsurv => ?_⟩
  · simp [packet_type, undefinedPacket]
  · simp [packet_type, h, hs, CONTROL_SOFT_RESET_V1, CONTROL_V1, ACK_V1, DATA_V1, DATA_V2,
      CONTROL_HARD_RESET_CLIENT_V2, CONTROL_HARD_RESET_SERVER_V2]
  · rw [show packet_type proto (op :: rest) =
        { flags := PT_CONTROL ||| keyIdFlags proto (opcode_extract op) (key_id_extract op),
          opcode := opcode_extract op, peer_id := -1 } from by
      simp [packet_type, h, hs, CONTROL_SOFT_RESET_V1, CONTROL_V1, ACK_V1, DATA_V1, DATA_V2,
        CONTROL_HARD_RESET_CLIENT_V2, CONTROL_HARD_RESET_SERVER_V2]]
    rcases keyIdFlags_cases proto (opcode_extract op) (key_id_extract op) with hk | hk | hk | hk <;>
      simp [hk] <;> decide
  · simp [packet_type, h, hs, CONTROL_SOFT_RESET_V1, CONTROL_V1, ACK_V1, DATA_V1, DATA_V2,
      CONTROL_HARD_RESET_CLIENT_V2, CONTROL_HARD_RESET_SERVER_V2]
  · rw [show packet_type proto (op :: rest) =
        { flags := PT_CONTROL ||| keyIdFlags proto (opcode_extract op) (key_id_extract op),
          opcode := opcode_extract op, peer_id := -1 } from by
      simp [packet_type, h, hs, CONTROL_SOFT_RESET_V1, CONTROL_V1, ACK_V1, DATA_V1, DATA_V2,
        CONTROL_HARD_RESET_CLIENT_V2, CONTROL_HARD_RESET_SERVER_V2]]
    rcases keyIdFlags_cases proto (opcode_extract op) (key_id_extract op) with hk | hk | hk | hk <;>
      simp [hk] <;> decide
  · rcases rest with _ | ⟨b1, rest⟩
    · simp [packet_type, h, CONTROL_SOFT_RESET_V1, CONTROL_V1, ACK_V1, DATA_V2]
    rcases rest with _ | ⟨b2, rest⟩
    · simp [packet_type, h, CONTROL_SOFT_RESET_V1, CONTROL_V1, ACK_V1, DATA_V2]
    rcases rest with _ | ⟨b3, rest⟩
    · simp [packet_type, h, CONTROL_SOFT_RESET_V1, CONTROL_V1, ACK_V1, DATA_V2]
    simp only [List.length_cons] at hlen
    omega
  · have hmask := packet_type_keyflags proto op rest hsurv
    refine ⟨fun hp => ?_, fun hp hsec => ?_, fun hop hp hsec hup => ?_⟩
    · rw [hmask, keyIdFlags_primary proto _ _ hp]
    · rw [hmask, keyIdFlags_secondary proto _ _ hp hsec]
    · rw [hmask, hop, keyIdFlags_upcoming proto _ hp hsec hup]

/-- C4 witness: the amended statement at concrete inputs — a 1-byte
DATA_V1 whose bits match the primary's key id 1 selects the primary, and a
CONTROL_SOFT_RESET_V1 whose bits equal the upcoming key id 2 selects the
future secondary. -/
theorem packet_type_classification_witness :
    (packet_type ⟨true, some 1, none, 2⟩ [op_compose DATA_V1 1]).flags
        &&& (PT_DEFINED ||| PT_SECONDARY ||| PT_SOFT_RESET) = PT_DEFINED ∧
    (packet_type ⟨true, some 0, some 1, 2⟩ [op_compose CONTROL_SOFT_RESET_V1 2]).flags
        &&& (PT_DEFINED ||| PT_SECONDARY ||| PT_SOFT_RESET)
      = (PT_DEFINED ||| PT_SECONDARY ||| PT_SOFT_RESET) :=
  ⟨((packet_type_classification ⟨true, some 1, none, 2⟩ (op_compose DATA_V1 1)
        []).2.2.2.2 (by decide)).1 (by decide),
   ((packet_type_classification ⟨true, some 0, some 1, 2⟩ (op_compose CONTROL_SOFT_RESET_V1 2)
        []).2.2.2.2 (by decide)).2.2 (by decide) (by decide) (by decide) (by decide)⟩

/-! ## Claim C7 -/

/-- C7 counterexample: the claim allows strings up to length 0xFFFF
(error only when the length exceeds 0xFFFF), but `write_auth_string`
passes `len + 1` to `write_string_length`, so a string of length exactly
0xFFFF already raises `auth_string_overflow` instead of being written. -/
theorem write_auth_string_boundary :
    write_auth_string (List.replicate 0xFFFF 97) = Except.error "auth_string_overflow" :=
  write_auth_string_overflow_of _ (List.length_replicate _ _)

/-- C7 (amended): `write_auth_string` emits `u16be(len+1) | bytes | 0x00`
for a non-empty string whose length + 1 does not exceed 0xFFFF (i.e.
length at most 0xFFFE), emits `u16be(0)` for the empty string, and raises
`auth_string_overflow` whenever length + 1 exceeds 0xFFFF (i.e. length at
least 0xFFFF). -/
theorem write_auth_string_spec (s : List Nat) :
    (s ≠ [] → s.length + 1 ≤ 0xFFFF →
      write_auth_string s = Except.ok (u16be (s.length + 1) ++ s ++ [0])) ∧
    (s = [] → write_auth_string s = Except.ok (u16be 0)) ∧
    (s.length + 1 > 0xFFFF → write_auth_string s = Except.error "auth_string_overflow") := by
  refine ⟨fun hne hle => ?_, fun he => ?_, fun hgt => ?_⟩
  · have h0 : s.length ≠ 0 := by simpa using hne
    have hng : ¬ (s.length + 1 > 0xFFFF) := by omega
    simp [write_auth_string, write_string_length, h0, hng, Except.map]
  · subst he; rfl
  · have h0 : s.length ≠ 0 := by omega
    simp [write_auth_string, write_string_length, h0, hgt, Except.map]

/-- C7 witness: the amended statement evaluated at `"a"` and at the empty
string. -/
theorem write_auth_string_spec_witness :
    write_auth_string [97] = Except.ok (u16be 2 ++ [97] ++ [0]) ∧
    write_auth_string [] = Except.ok (u16be 0) :=
  ⟨(write_auth_string_spec [97]).1 (by decide) (by decide),
   (write_auth_string_spec []).2.1 rfl⟩

theorem readN_succeeds {n : Nat} {bs : List Nat} (h : ¬ bs.length < n) :
    readN n bs = some (bs.take n, bs.drop n) := by
  simp [readN, h]

theorem readN_fails {n : Nat} {bs : List Nat} (h : bs.length < n) : readN n bs = none := by
  unfold readN
  rw [if_pos h]

theorem decapsulate_hmac_fail (hmacCmp : List Nat → Bool) (isTcp : Bool)
    (hmacSize t opcode : Nat) (p0 : ProtoSt) (kc0 : KeySt) (buf : List Nat)
    (hlen : 9 + hmacSize ≤ buf.length) (hfail : hmacCmp buf = false) :
    decapsulate hmacCmp isTcp true hmacSize t opcode p0 kc0 buf =
      { accepted := false, proto := stat_error p0 Err.HMAC_ERROR,
        kc := if isTcp then kc_invalidate kc0 Err.HMAC_ERROR else kc0,
        payload := ((buf.drop 1).drop 8).drop hmacSize } := by
  have h1 : readN 1 buf = some (buf.take 1, buf.drop 1) := readN_succeeds (by omega)
  have h2 : readN 8 (buf.drop 1) = some ((buf.drop 1).take 8, (buf.drop 1).drop 8) :=
    readN_succeeds (by simp; omega)
  have h3 : readN hmacSize ((buf.drop 1).drop 8) =
      some (((buf.drop 1).drop 8).take hmacSize, ((buf.drop 1).drop 8).drop hmacSize) :=
    readN_succeeds (by simp; omega)
  unfold decapsulate
  rw [h1]
  dsimp only
  rw [h2]
  dsimp only
  rw [h3]
  simp [hfail]

theorem decapsulate_hmac_ok (hmacCmp : List Nat → Bool) (isTcp : Bool)
    (hmacSize t opcode : Nat) (p0 : ProtoSt) (kc0 : KeySt) (buf : List Nat)
    (hlen : 9 + hmacSize ≤ buf.length) (hok : hmacCmp buf = true) :
    decapsulate hmacCmp isTcp true hmacSize t opcode p0 kc0 buf =
      decap_tls_body isTcp opcode ((buf.drop 1).take 8) t p0 kc0
        (((buf.drop 1).drop 8).drop hmacSize) := by
  have h1 : readN 1 buf = some (buf.take 1, buf.drop 1) := readN_succeeds (by omega)
  have h2 : readN 8 (buf.drop 1) = some ((buf.drop 1).take 8, (buf.drop 1).drop 8) :=
    readN_succeeds (by simp; omega)
  have h3 : readN hmacSize ((buf.drop 1).drop 8) =
      some (((buf.drop 1).drop 8).take hmacSize, ((buf.drop 1).drop 8).drop hmacSize) :=
    readN_succeeds (by simp; omega)
  unfold decapsulate
  rw [h1]
  dsimp only
  rw [h2]
  dsimp only
  rw [h3]
  simp [hok]

theorem decapsulate_short_buffer (hmacCmp : List Nat → Bool) (isTcp : Bool)
    (hmacSize t opcode : Nat) (p0 : ProtoSt) (kc0 : KeySt) (buf : List Nat)
    (hshort : buf.length < 9 + hmacSize) :
    decapsulate hmacCmp isTcp true hmacSize t opcode p0 kc0 buf
      = decaps_buffer_error isTcp p0 kc0 := by
  unfold decapsulate
  by_cases h1 : buf.length < 1
  · rw [readN_fails h1]
    rfl
  · rw [readN_succeeds h1]
    dsimp only
    by_cases h2 : (buf.drop 1).length < 8
    · rw [readN_fails h2]
      rfl
    · rw [readN_succeeds h2]
      dsimp only
      have h3 : ((buf.drop 1).drop 8).length < hmacSize := by
        simp only [List.length_drop]
        simp only [List.length_drop] at h2
        omega
      rw [readN_fails h3]
      rfl

theorem verify_src_psid_frame (isTcp : Bool) (src : List Nat) (p : ProtoSt) (kc : KeySt) :
    (verify_src_psid isTcp src p kc).2.1.keepalive_expire = p.keepalive_expire := by
  unfold verify_src_psid
  repeat' split
  all_goals rfl

theorem verify_dest_psid_frame (isTcp : Bool) (dest : List Nat) (p : ProtoSt) (kc : KeySt) :
    (verify_dest_psid isTcp dest p kc).2.1.keepalive_expire = p.keepalive_expire := by
  unfold verify_dest_psid
  split
  all_goals rfl

theorem decap_tls_tail_expire (isTcp : Bool) (opcode : Nat) (pid : PacketID)
    (pid_ok : Bool) (p : ProtoSt) (kc : KeySt) (r : List Nat) :
    (decap_tls_tail isTcp opcode pid pid_ok p kc r).proto.keepalive_expire
      = p.keepalive_expire := by
  unfold decap_tls_tail
  repeat' split
  all_goals simp [decaps_buffer_error, stat_error]
  all_goals (split <;> rfl)

theorem decap_plain_tail_expire (isTcp : Bool) (opcode : Nat) (p : ProtoSt) (kc : KeySt)
    (r : List Nat) :
    (decap_plain_tail isTcp opcode p kc r).proto.keepalive_expire
      = p.keepalive_expire := by
  unfold decap_plain_tail
  repeat' split
  all_goals simp [decaps_buffer_error, stat_error]
  all_goals (split <;> rfl)

theorem decap_tls_body_expire (isTcp : Bool) (opcode : Nat) (src : List Nat) (t : Nat)
    (p0 : ProtoSt) (kc0 : KeySt) (r3 : List Nat) :
    (decap_tls_body isTcp opcode src t p0 kc0 r3).proto.keepalive_expire
      = t + p0.keepalive_timeout := by
  unfold decap_tls_body
  dsimp only
  repeat' split
  all_goals
    simp [decaps_buffer_error, stat_error, decap_tls_tail_expire, verify_src_psid_frame,
      verify_dest_psid_frame, update_last_received]

theorem readN_eq {n : Nat} {bs a r : List Nat} (h : readN n bs = some (a, r)) :
    a ++ r = bs ∧ a.length = n := by
  unfold readN at h
  split at h
  · simp at h
  · rename_i hlen
    rw [Option.some.injEq, Prod.mk.injEq] at h
    obtain ⟨ha, hr⟩ := h
    subst ha
    subst hr
    refine ⟨List.take_append_drop n bs, ?_⟩
    simp only [List.length_take]
    omega

theorem bytes_of_append {a r bs : List Nat} (he : a ++ r = bs) (hb : ∀ x ∈ bs, x < 256) :
    (∀ x ∈ a, x < 256) ∧ (∀ x ∈ r, x < 256) := by
  subst he
  exact ⟨fun x hx => hb x (List.mem_append.mpr (Or.inl hx)),
    fun x hx => hb x (List.mem_append.mpr (Or.inr hx))⟩

theorem be32_dec32 {a b c d : Nat} (ha : a < 256) (hb : b < 256) (hc : c < 256)
    (hd : d < 256) : be32 (dec32 [a, b, c, d]) = [a, b, c, d] := by
  simp only [be32, dec32, List.cons.injEq, and_true]
  norm_num
  omega

theorem list_length_four {a : List Nat} (h : a.length = 4) :
    ∃ x y z w, a = [x, y, z, w] := by
  rcases a with _ | ⟨x, a⟩
  · simp at h
  rcases a with _ | ⟨y, a⟩
  · simp at h
  rcases a with _ | ⟨z, a⟩
  · simp at h
  rcases a with _ | ⟨w, a⟩
  · simp at h
  simp only [List.length_cons] at h
  have ha : a = [] := by
    have : a.length = 0 := by omega
    simpa [List.length_eq_zero] using this
  subst ha
  exact ⟨x, y, z, w, rfl⟩

theorem read32_eq {bs : List Nat} {v : Nat} {r : List Nat} (h : read32 bs = some (v, r))
    (hb : ∀ x ∈ bs, x < 256) :
    be32 v ++ r = bs ∧ (∀ x ∈ r, x < 256) := by
  unfold read32 at h
  cases hN : readN 4 bs with
  | none => rw [hN] at h; simp at h
  | some q =>
    obtain ⟨a, r1⟩ := q
    rw [hN] at h
    dsimp only at h
    rw [Option.some.injEq, Prod.mk.injEq] at h
    obtain ⟨hv, hr⟩ := h
    subst hv
    subst hr
    obtain ⟨happ, hlen⟩ := readN_eq hN
    obtain ⟨hba, hbr⟩ := bytes_of_append happ hb
    obtain ⟨x, y, z, w, rfl⟩ := list_length_four hlen
    refine ⟨?_, hbr⟩
    rw [be32_dec32 (hba x (by simp)) (hba y (by simp)) (hba z (by simp)) (hba w (by simp))]
    exact happ

theorem readAcks_eq {n : Nat} : ∀ {bs vs r : List Nat},
    readAcks n bs = some (vs, r) → (∀ x ∈ bs, x < 256) →
    vs.length = n ∧ vs.flatMap be32 ++ r = bs ∧ (∀ x ∈ r, x < 256) := by
  induction n with
  | zero =>
    intro bs vs r h hb
    unfold readAcks at h
    rw [Option.some.injEq, Prod.mk.injEq] at h
    obtain ⟨hv, hr⟩ := h
    subst hv
    subst hr
    exact ⟨rfl, by simp, hb⟩
  | succ n ih =>
    intro bs vs r h hb
    unfold readAcks at h
    cases h32 : read32 bs with
    | none => rw [h32] at h; simp at h
    | some q =>
      obtain ⟨v, r1⟩ := q
      rw [h32] at h
      dsimp only at h
      cases hA : readAcks n r1 with
      | none => rw [hA] at h; simp at h
      | some q2 =>
        obtain ⟨vs2, r2⟩ := q2
        rw [hA] at h
        dsimp only at h
        rw [Option.some.injEq, Prod.mk.injEq] at h
        obtain ⟨hv, hr⟩ := h
        subst hv
        subst hr
        obtain ⟨h32e, hb1⟩ := read32_eq h32 hb
        obtain ⟨hl, hfm, hbr⟩ := ih hA hb1
        refine ⟨by simp [hl], ?_, hbr⟩
        rw [List.flatMap_cons, List.append_assoc, hfm, h32e]

theorem op_compose_extract (op : Nat) :
    op_compose (opcode_extract op) (key_id_extract op) = op := by
  unfold op_compose opcode_extract key_id_extract OPCODE_SHIFT KEY_ID_MASK
  simp only [show (2 : Nat) ^ 3 = 8 from rfl, show 7 + 1 = 8 from rfl]
  omega

/-! ## Claim C1 -/

/-- C1 counterexample: a control packet in tls-auth mode over TCP whose
HMAC fails verification does mutate key-context state — `decapsulate`
invalidates the key context with HMAC_ERROR (proto.hpp lines 2145-2148),
so "no state of the protocol (... key-context state) is mutated" is false
as stated. -/
theorem hmac_fail_mutates_tcp_key_context :
    (decapsulate hmacRejectAll true true 4 100 CONTROL_V1 protoW keyStW pktW).kc.invalid
        = some Err.HMAC_ERROR ∧
    keyStW.invalid = none := by decide

/-- C1 (amended): for every control packet in tls-auth mode whose HMAC
fails verification, `decapsulate` returns false and leaves `psid_peer`,
the tls-auth replay window, the keepalive deadline, and the reliable
send/receive windows and ACK list unmutated; on UDP the key context is
entirely unchanged, while on TCP the only state change is that the key
context is invalidated with HMAC_ERROR (per the section-7 error policy). -/
theorem hmac_fail_no_state_change (hmacCmp : List Nat → Bool) (isTcp : Bool)
    (hmacSize t opcode : Nat) (p0 : ProtoSt) (kc0 : KeySt) (buf : List Nat)
    (hlen : 9 + hmacSize ≤ buf.length) (hfail : hmacCmp buf = false) :
    (decapsulate hmacCmp isTcp true hmacSize t opcode p0 kc0 buf).accepted = false ∧
    (decapsulate hmacCmp isTcp true hmacSize t opcode p0 kc0 buf).proto.psid_peer
      = p0.psid_peer ∧
    (decapsulate hmacCmp isTcp true hmacSize t opcode p0 kc0 buf).proto.ta_pid_recv
      = p0.ta_pid_recv ∧
    (decapsulate hmacCmp isTcp true hmacSize t opcode p0 kc0 buf).proto.keepalive_expire
      = p0.keepalive_expire ∧
    (decapsulate hmacCmp isTcp true hmacSize t opcode p0 kc0 buf).kc.rel_send
      = kc0.rel_send ∧
    (decapsulate hmacCmp isTcp true hmacSize t opcode p0 kc0 buf).kc.rel_recv
      = kc0.rel_recv ∧
    (decapsulate hmacCmp isTcp true hmacSize t opcode p0 kc0 buf).kc.xmit_acks
      = kc0.xmit_acks ∧
    (isTcp = false → (decapsulate hmacCmp isTcp true hmacSize t opcode p0 kc0 buf).kc = kc0) ∧
    (isTcp = true → (decapsulate hmacCmp isTcp true hmacSize t opcode p0 kc0 buf).kc
      = kc_invalidate kc0 Err.HMAC_ERROR) := by
  rw [decapsulate_hmac_fail hmacCmp isTcp hmacSize t opcode p0 kc0 buf hlen hfail]
  refine ⟨rfl, rfl, rfl, rfl, ?_, ?_, ?_, fun h => ?_, fun h => ?_⟩
  · cases isTcp <;> simp [kc_invalidate] <;> split <;> rfl
  · cases isTcp <;> simp [kc_invalidate] <;> split <;> rfl
  · cases isTcp <;> simp [kc_invalidate] <;> split <;> rfl
  · subst h; rfl
  · subst h; rfl

/-- C1 witness: the amended statement at a concrete UDP packet — the key
context is completely unchanged. -/
theorem hmac_fail_no_state_change_witness :
    (decapsulate hmacRejectAll false true 4 100 CONTROL_V1 protoW keyStW pktW).kc = keyStW :=
  (hmac_fail_no_state_change hmacRejectAll false 4 100 CONTROL_V1 protoW keyStW pktW
      (by decide) (by decide)).2.2.2.2.2.2.2.1 rfl

/-! ## Claim C2 -/

/-- C2: per-packet HMAC, decrypt, and buffer errors.  On TCP the key
context handling the packet is invalidated; on UDP the error is counted in
the stats sink, the packet is dropped (decapsulate returns false; a failed
data decrypt yields an empty buffer), and the key context remains
unchanged, so the session continues. -/
theorem per_packet_error_policy :
    (∀ (hmacCmp : List Nat → Bool) hmacSize t opcode p0 kc0 buf,
      9 + hmacSize ≤ List.length buf → hmacCmp buf = false →
      (decapsulate hmacCmp true true hmacSize t opcode p0 kc0 buf).kc
          = kc_invalidate kc0 Err.HMAC_ERROR ∧
      (decapsulate hmacCmp true true hmacSize t opcode p0 kc0 buf).proto
          = stat_error p0 Err.HMAC_ERROR ∧
      (decapsulate hmacCmp false true hmacSize t opcode p0 kc0 buf).kc = kc0 ∧
      (decapsulate hmacCmp false true hmacSize t opcode p0 kc0 buf).proto
          = stat_error p0 Err.HMAC_ERROR ∧
      (decapsulate hmacCmp false true hmacSize t opcode p0 kc0 buf).accepted = false) ∧
    (∀ (hmacCmp : List Nat → Bool) hmacSize t opcode p0 kc0 buf,
      List.length buf < 9 + hmacSize →
      decapsulate hmacCmp true true hmacSize t opcode p0 kc0 buf
          = decaps_buffer_error true p0 kc0 ∧
      decapsulate hmacCmp false true hmacSize t opcode p0 kc0 buf
          = decaps_buffer_error false p0 kc0) ∧
    (∀ p kc,
      (decaps_buffer_error true p kc).kc = kc_invalidate kc Err.BUFFER_ERROR ∧
      (decaps_buffer_error true p kc).proto = stat_error p Err.BUFFER_ERROR ∧
      (decaps_buffer_error false p kc).kc = kc ∧
      (decaps_buffer_error false p kc).proto = stat_error p Err.BUFFER_ERROR ∧
      (decaps_buffer_error false p kc).accepted = false) ∧
    (∀ (cryptoDec : List Nat → Option Err × List Nat) decompress kc stats b0 bt e,
      kc_ready kc = true →
      ¬ List.length (b0 :: bt) < op_head_size b0 →
      (cryptoDec ((b0 :: bt).drop (op_head_size b0))).1 = some e →
      (e = Err.DECRYPT_ERROR ∨ e = Err.HMAC_ERROR) →
      (kc_decrypt true cryptoDec decompress kc stats (b0 :: bt)).kc = kcx_invalidate kc e ∧
      (kc_decrypt true cryptoDec decompress kc stats (b0 :: bt)).stats = e :: stats ∧
      (kc_decrypt false cryptoDec decompress kc stats (b0 :: bt)).kc = kc ∧
      (kc_decrypt false cryptoDec decompress kc stats (b0 :: bt)).stats = e :: stats ∧
      (decompress = none → (cryptoDec ((b0 :: bt).drop (op_head_size b0))).2 = [] →
        (kc_decrypt false cryptoDec decompress kc stats (b0 :: bt)).buf = [])) := by
  refine ⟨fun hmacCmp hmacSize t opcode p0 kc0 buf hlen hfail => ?_,
    fun hmacCmp hmacSize t opcode p0 kc0 buf hshort => ?_,
    fun p kc => ⟨rfl, rfl, rfl, rfl, rfl⟩,
    fun cryptoDec decompress kc stats b0 bt e hready hhead hcd he => ?_⟩
  · rw [decapsulate_hmac_fail hmacCmp true hmacSize t opcode p0 kc0 buf hlen hfail,
      decapsulate_hmac_fail hmacCmp false hmacSize t opcode p0 kc0 buf hlen hfail]
    exact ⟨rfl, rfl, rfl, rfl, rfl⟩
  · exact ⟨decapsulate_short_buffer hmacCmp true hmacSize t opcode p0 kc0 buf hshort,
      decapsulate_short_buffer hmacCmp false hmacSize t opcode p0 kc0 buf hshort⟩
  · unfold kc_decrypt
    rw [if_pos hready, if_pos hready]
    dsimp only
    rw [if_neg hhead, if_neg hhead]
    refine ⟨?_, ?_, ?_, ?_, fun hdn hout => ?_⟩
    · rw [hcd]
      simp [he]
    · rw [hcd]
    · rw [hcd]
      simp
    · rw [hcd]
    · subst hdn
      simp [hout]

/-- C2 witness: a 13-byte packet failing HMAC over TCP invalidates the key
context, and the same packet over UDP leaves it valid with the error
counted. -/
theorem per_packet_error_policy_witness :
    (decapsulate hmacRejectAll true true 4 100 CONTROL_V1 protoW keyStW pktW).kc
        = kc_invalidate keyStW Err.HMAC_ERROR ∧
    (decapsulate hmacRejectAll false true 4 100 CONTROL_V1 protoW keyStW pktW).kc = keyStW :=
  ⟨(per_packet_error_policy.1 hmacRejectAll 4 100 CONTROL_V1 protoW keyStW pktW
      (by decide) (by decide)).1,
   (per_packet_error_policy.1 hmacRejectAll 4 100 CONTROL_V1 protoW keyStW pktW
      (by decide) (by decide)).2.2.1⟩

theorem decapsulate_plain_expire (hmacCmp : List Nat → Bool) (isTcp : Bool)
    (hmacSize t opcode : Nat) (p0 : ProtoSt) (kc0 : KeySt) (buf : List Nat) :
    (decapsulate hmacCmp isTcp false hmacSize t opcode p0 kc0 buf).proto.keepalive_expire
      = t + p0.keepalive_timeout := by
  unfold decapsulate
  rw [if_neg Bool.false_ne_true]
  dsimp only
  repeat' split
  all_goals
    simp [decaps_buffer_error, stat_error, decap_plain_tail_expire, verify_src_psid_frame,
      verify_dest_psid_frame, update_last_received]

/-! ## Claim C5 -/

/-- C5: `keepalive_expire` is set to now + keepalive_timeout whenever an
authentic packet is received — by `update_last_received`, by `decapsulate`
once the HMAC has verified in tls-auth mode (and on every control packet
without tls-auth), and by `data_decrypt` whenever decryption yields a
non-empty result — and whenever `keepalive_housekeeping` runs with
now ≥ keepalive_expire it counts KEEPALIVE_TIMEOUT in the stats sink and
disconnects, invalidating both key contexts. -/
theorem keepalive_tracking :
    (∀ t p, (update_last_received t p).keepalive_expire = t + p.keepalive_timeout) ∧
    (∀ (hmacCmp : List Nat → Bool) isTcp hmacSize t opcode p0 kc0 buf,
      9 + hmacSize ≤ List.length buf → hmacCmp buf = true →
      (decapsulate hmacCmp isTcp true hmacSize t opcode p0 kc0 buf).proto.keepalive_expire
        = t + p0.keepalive_timeout) ∧
    (∀ (hmacCmp : List Nat → Bool) isTcp hmacSize t opcode p0 kc0 buf,
      (decapsulate hmacCmp isTcp false hmacSize t opcode p0 kc0 buf).proto.keepalive_expire
        = t + p0.keepalive_timeout) ∧
    (∀ isTcp cryptoDec decompress t p kc buf,
      (kc_decrypt isTcp cryptoDec decompress kc p.stats buf).buf ≠ [] →
      (data_decrypt isTcp cryptoDec decompress t p kc buf).proto.keepalive_expire
        = t + p.keepalive_timeout) ∧
    (∀ tnow ping s, tnow ≥ s.keepalive_expire →
      Err.KEEPALIVE_TIMEOUT ∈ (keepalive_housekeeping tnow ping s).stats ∧
      (∀ kp, s.primary = some kp → kp.invalid = none →
        (keepalive_housekeeping tnow ping s).primary
          = some { kp with invalid := some Err.KEEPALIVE_TIMEOUT }) ∧
      (∀ ks, s.secondary = some ks → ks.invalid = none →
        (keepalive_housekeeping tnow ping s).secondary
          = some { ks with invalid := some Err.KEEPALIVE_TIMEOUT })) := by
  refine ⟨fun t p => rfl,
    fun hmacCmp isTcp hmacSize t opcode p0 kc0 buf hlen hok => ?_,
    fun hmacCmp isTcp hmacSize t opcode p0 kc0 buf => ?_,
    fun isTcp cryptoDec decompress t p kc buf hne => ?_,
    fun tnow ping s hexp => ?_⟩
  · rw [decapsulate_hmac_ok hmacCmp isTcp hmacSize t opcode p0 kc0 buf hlen hok]
    exact decap_tls_body_expire isTcp opcode ((buf.drop 1).take 8) t p0 kc0
      (((buf.drop 1).drop 8).drop hmacSize)
  · exact decapsulate_plain_expire hmacCmp isTcp hmacSize t opcode p0 kc0 buf
  · have h : (kc_decrypt isTcp cryptoDec decompress kc p.stats buf).buf.length ≠ 0 := by
      simpa [List.length_eq_zero] using hne
    unfold data_decrypt
    simp [h, update_last_received]
  · unfold keepalive_housekeeping kh_disconnect
    refine ⟨?_, fun kp hp hpi => ?_, fun ks hs hsi => ?_⟩
    · by_cases hxm : s.keepalive_xmit ≤ tnow <;>
        by_cases hps : s.primary.isSome = true <;>
          simp [hxm, hps, hexp]
    · by_cases hxm : s.keepalive_xmit ≤ tnow <;>
        simp [hxm, hexp, hp, hpi, kcx_invalidate]
    · by_cases hxm : s.keepalive_xmit ≤ tnow <;>
        by_cases hps : s.primary.isSome = true <;>
          simp [hxm, hps, hexp, hs, hsi, kcx_invalidate]

/-- C5 witness: a 13-byte tls-auth control packet passing HMAC at time 100
sets the keepalive deadline to 100 + keepalive_timeout. -/
theorem keepalive_tracking_witness :
    (decapsulate hmacAcceptAll false true 4 100 CONTROL_V1 protoW keyStW pktW).proto.keepalive_expire
      = 100 + protoW.keepalive_timeout :=
  keepalive_tracking.2.1 hmacAcceptAll false 4 100 CONTROL_V1 protoW keyStW pktW
    (by decide) (by decide)

/-! ## Claim C8 -/

/-- C8: for every data packet processed by `data_decrypt`, a decrypted
result equal to the 16-byte keepalive magic is discarded — the buffer is
reset to zero size and not delivered as payload — while a decrypted result
equal to the explicit-exit-notify magic passes through unchanged and is
surfaced as an exit signal by the consumer. -/
theorem data_decrypt_magic (isTcp : Bool) (cryptoDec : List Nat → Option Err × List Nat)
    (decompress : Option (List Nat → List Nat)) (t : Nat) (p : ProtoSt) (kc : KeyCtx)
    (buf : List Nat) :
    ((kc_decrypt isTcp cryptoDec decompress kc p.stats buf).buf = keepalive_message →
      (data_decrypt isTcp cryptoDec decompress t p kc buf).buf = []) ∧
    ((kc_decrypt isTcp cryptoDec decompress kc p.stats buf).buf
        = explicit_exit_notify_message →
      (data_decrypt isTcp cryptoDec decompress t p kc buf).buf
          = explicit_exit_notify_message ∧
      surfaces_exit_signal (data_decrypt isTcp cryptoDec decompress t p kc buf).buf
          = true) := by
  have hbuf : (data_decrypt isTcp cryptoDec decompress t p kc buf).buf
      = if is_keepalive (kc_decrypt isTcp cryptoDec decompress kc p.stats buf).buf then []
        else (kc_decrypt isTcp cryptoDec decompress kc p.stats buf).buf := rfl
  constructor
  · intro h
    rw [hbuf, h]
    decide
  · intro h
    have h1 : (data_decrypt isTcp cryptoDec decompress t p kc buf).buf
        = explicit_exit_notify_message := by
      rw [hbuf, h]
      decide
    refine ⟨h1, ?_⟩
    rw [h1]
    decide

/-- C8 witness: a DATA_V1 packet whose decryption yields exactly the
keepalive magic is discarded. -/
theorem data_decrypt_magic_witness :
    (data_decrypt false (fun _ => (none, keepalive_message)) none 100 protoW
        keyCtxReady [48]).buf = [] :=
  (data_decrypt_magic false (fun _ => (none, keepalive_message)) none 100 protoW
      keyCtxReady [48]).1 (by decide)

/-! ## Claim C6 -/

/-- C6: round trip of the control-packet codec — for every well-formed
control packet `bs` (a byte string that `decode_control` parses into
opcode, key id, source PSID, HMAC, long-form packet id, ACK list, optional
destination PSID, optional message id, and payload, following the read
order of `decapsulate`), re-encoding the decoded fields with
`encode_control` (the write order of `encapsulate`/`gen_head`) yields `bs`
back. -/
theorem control_codec_round_trip (hmacSize : Nat) (bs : List Nat) (p : CtrlPacket)
    (h : decode_control hmacSize bs = some p) (hb : ∀ x ∈ bs, x < 256) :
    encode_control p = bs := by
  cases bs with
  | nil => simp [decode_control] at h
  | cons op r0 =>
    unfold decode_control at h
    dsimp only at h
    have hbr0 : ∀ x ∈ r0, x < 256 := fun x hx => hb x (by simp [hx])
    cases h8 : readN 8 r0 with
    | none => rw [h8] at h; simp at h
    | some q1 =>
      obtain ⟨psid, r1⟩ := q1
      rw [h8] at h
      dsimp only at h
      obtain ⟨h8e, h8l⟩ := readN_eq h8
      obtain ⟨hbpsid, hbr1⟩ := bytes_of_append h8e hbr0
      cases hH : readN hmacSize r1 with
      | none => rw [hH] at h; simp at h
      | some q2 =>
        obtain ⟨hm, r2⟩ := q2
        rw [hH] at h
        dsimp only at h
        obtain ⟨hHe, hHl⟩ := readN_eq hH
        obtain ⟨hbhm, hbr2⟩ := bytes_of_append hHe hbr1
        cases hP1 : read32 r2 with
        | none => rw [hP1] at h; simp at h
        | some q3 =>
          obtain ⟨pidId, r3⟩ := q3
          rw [hP1] at h
          dsimp only at h
          obtain ⟨hP1e, hbr3⟩ := read32_eq hP1 hbr2
          cases hP2 : read32 r3 with
          | none => rw [hP2] at h; simp at h
          | some q4 =>
            obtain ⟨pidTime, r4⟩ := q4
            rw [hP2] at h
            dsimp only at h
            obtain ⟨hP2e, hbr4⟩ := read32_eq hP2 hbr3
            cases r4 with
            | nil => simp at h
            | cons ackLen r5 =>
              dsimp only at h
              have hbr5 : ∀ x ∈ r5, x < 256 := fun x hx => hbr4 x (by simp [hx])
              cases hAk : readAcks ackLen r5 with
              | none => rw [hAk] at h; simp at h
              | some q5 =>
                obtain ⟨acks, r6⟩ := q5
                rw [hAk] at h
                dsimp only at h
                obtain ⟨hAl, hAe, hbr6⟩ := readAcks_eq hAk hbr5
                by_cases hgt : ackLen > 0
                · rw [if_pos hgt] at h
                  cases hD : readN 8 r6 with
                  | none => rw [hD] at h; simp at h
                  | some q6 =>
                    obtain ⟨dest, r7⟩ := q6
                    rw [hD] at h
                    dsimp only [Option.map] at h
                    obtain ⟨hDe, hDl⟩ := readN_eq hD
                    obtain ⟨hbdest, hbr7⟩ := bytes_of_append hDe hbr6
                    by_cases hAck : opcode_extract op ≠ ACK_V1
                    · rw [if_pos hAck] at h
                      cases hM : read32 r7 with
                      | none => rw [hM] at h; simp at h
                      | some q7 =>
                        obtain ⟨mid, r8⟩ := q7
                        rw [hM] at h
                        dsimp only [Option.map] at h
                        obtain ⟨hMe, hbr8⟩ := read32_eq hM hbr7
                        rw [Option.some.injEq] at h
                        subst h
                        unfold encode_control
                        dsimp only
                        rw [op_compose_extract]
                        congr 1
                        simp only [List.append_assoc, List.cons_append]
                        rw [hMe, hDe, hAe, hAl, hP2e, hP1e, hHe, h8e]
                    · rw [if_neg hAck] at h
                      dsimp only at h
                      rw [Option.some.injEq] at h
                      subst h
                      unfold encode_control
                      dsimp only
                      rw [op_compose_extract]
                      congr 1
                      simp only [List.append_assoc, List.cons_append, List.append_nil]
                      rw [hDe, hAe, hAl, hP2e, hP1e, hHe, h8e]
                · rw [if_neg hgt] at h
                  dsimp only at h
                  by_cases hAck : opcode_extract op ≠ ACK_V1
                  · rw [if_pos hAck] at h
                    cases hM : read32 r6 with
                    | none => rw [hM] at h; simp at h
                    | some q7 =>
                      obtain ⟨mid, r8⟩ := q7
                      rw [hM] at h
                      dsimp only [Option.map] at h
                      obtain ⟨hMe, hbr8⟩ := read32_eq hM hbr6
                      rw [Option.some.injEq] at h
                      subst h
                      unfold encode_control
                      dsimp only
                      rw [op_compose_extract]
                      congr 1
                      simp only [List.append_assoc, List.cons_append, List.append_nil]
                      rw [hMe, hAe, hAl, hP2e, hP1e, hHe, h8e]
                  · rw [if_neg hAck] at h
                    dsimp only at h
                    rw [Option.some.injEq] at h
                    subst h
                    unfold encode_control
                    dsimp only
                    rw [op_compose_extract]
                    congr 1
                    simp only [List.append_assoc, List.cons_append, List.append_nil]
                    rw [hAe, hAl, hP2e, hP1e, hHe, h8e]

/-- C6 witness: a concrete 45-byte control packet decodes to
`ctrlPacketW` and re-encodes to the same bytes. -/
theorem control_codec_round_trip_witness : encode_control ctrlPacketW = ctrlBytesW :=
  control_codec_round_trip 2 ctrlBytesW ctrlPacketW (by decide) (by decide)

/-! ## Claim C9 -/

/-- C9: `KeyContext::net_send` forwards a NET_SEND_RETRANSMIT packet to the
network only when the transport is non-reliable (UDP); on a reliable
transport (TCP, `is_reliable = true`) a retransmit is never emitted, while
every other send category always reaches the network. -/
theorem net_send_retransmit_udp_only :
    (∀ nstype, net_send false nstype = true) ∧
    net_send true NetSendType.NET_SEND_RETRANSMIT = false ∧
    net_send true NetSendType.NET_SEND_SSL = true ∧
    net_send true NetSendType.NET_SEND_RAW = true ∧
    net_send true NetSendType.NET_SEND_ACK = true := by
  refine ⟨fun nstype => ?_, rfl, rfl, rfl, rfl⟩
  cases nstype <;> rfl

/-! ## Claim C10 -/

/-- C10: when the key context is not ready (state below ACTIVE, or no
crypto context defined, or invalidated), both `encrypt` and `decrypt`
truncate the buffer to zero size and raise no error: the key context and
the stats sink are unchanged. -/
theorem not_ready_truncates (enable_op32 : Bool) (key_id remote_peer_id : Nat)
    (compressor decompress : Option (List Nat → List Nat))
    (cryptoEnc : List Nat → List Nat) (cryptoDec : List Nat → Option Err × List Nat)
    (isTcp : Bool) (kc : KeyCtx) (stats : List Err) (buf : List Nat)
    (h : kc_ready kc = false) :
    kc_encrypt enable_op32 key_id remote_peer_id compressor cryptoEnc kc stats buf
      = ([], stats) ∧
    kc_decrypt isTcp cryptoDec decompress kc stats buf = ⟨[], kc, stats⟩ := by
  constructor
  · simp [kc_encrypt, h]
  · simp [kc_decrypt, h]

/-- C10 witness: a freshly constructed key context (state C_INITIAL, no
crypto) truncates a 1-byte buffer on both paths. -/
theorem not_ready_truncates_witness :
    kc_encrypt false 0 0 none (fun b => b) keyCtxInitial [] [5] = ([], []) ∧
    kc_decrypt false (fun b => (none, b)) none keyCtxInitial [] [5] = ⟨[], keyCtxInitial, []⟩ :=
  not_ready_truncates false 0 0 none none (fun b => b) (fun b => (none, b)) false
    keyCtxInitial [] [5] (by decide)

end OVPN
